import Mathlib

/-!
Verification of the Campaign Dispatch & Delivery-State Reconciliation Engine
of the SmartZap template repository.

The definitions below are a shallow embedding of:
- the delivery-receipt webhook handler (`app/api/webhook/route.ts`, the
  Status Reconciler),
- the campaign workflow (`app/api/campaign/workflow/route.ts`, the
  Campaign Orchestrator and Batch Sender), and
- the Redis rate/window helpers (`lib/data/campaigns.ts` part of the
  snapshot, `checkPairRateLimit` / `checkCSW`).

The Supabase tables `campaigns`, `campaign_contacts` and `account_alerts`
(schema in the consolidated migration) are modelled as Lean structures;
sequential database semantics replaces awaited queries.  Timestamps
(`new Date().toISOString()`, `Date.now()`) are modelled as a `Nat` clock
value passed to each operation.
-/

namespace SmartZap

/-- Stored status of a `campaign_contacts` row (`status TEXT DEFAULT 'pending'`).
The writers only ever store one of these five values. -/
inductive RecStatus
  | pending
  | sent
  | delivered
  | read
  | failed
deriving DecidableEq, Repr

/-- Campaign lifecycle status (`CampaignStatus` enum in `@/types`:
DRAFT | SCHEDULED | SENDING | COMPLETED | PAUSED | FAILED). -/
inductive CampaignStatus
  | draft
  | scheduled
  | sending
  | paused
  | completed
  | failed
deriving DecidableEq, Repr

/-- Status string carried by a webhook `statusUpdate`.  The provider sends
arbitrary strings; the handler matches on the four known values and its
`statusOrder` lookup defaults to 0 for anything else, represented by
`other`. -/
inductive WStatus
  | sent
  | delivered
  | read
  | failed
  | other (s : String)
deriving DecidableEq, Repr

/-- `campaigns` row: counters and lifecycle fields used by the engine. -/
structure Campaign where
  status : CampaignStatus
  recipients : Nat
  sent : Nat
  delivered : Nat
  read : Nat
  failed : Nat
  startedAt : Option Nat
  completedAt : Option Nat
deriving DecidableEq, Repr

/-- `campaign_contacts` row for the single campaign under consideration
(`UNIQUE(campaign_id, phone)` in the schema). -/
structure ContactRecord where
  phone : String
  messageId : Option String
  status : RecStatus
  sentAt : Option Nat
  deliveredAt : Option Nat
  readAt : Option Nat
  failedAt : Option Nat
  error : Option String
  failureCode : Option Nat
  failureReason : Option String
deriving DecidableEq, Repr

/-- `account_alerts` row. -/
structure Alert where
  id : String
  type : String
  code : Nat
  message : String
  details : String
  createdAt : Nat
  dismissed : Bool
deriving DecidableEq, Repr

/-- The persistent state the reconciler touches: the campaign row, its
contact rows, and the account alerts. -/
structure DB where
  campaign : Campaign
  contacts : List ContactRecord
  alerts : List Alert
deriving DecidableEq, Repr

/-! ## WhatsApp error table

`lib/whatsapp-errors.ts` is imported by the webhook handler and the
workflow but its implementation is not part of the snapshot (only its
callers and the repository documentation are). -/

/-- Normalized error triple produced by the static lookup table. -/
structure MappedError where
  category : String
  userMessage : String
  retryable : Bool
  action : String
deriving DecidableEq, Repr

/-- Modelled from the spec: `lib/whatsapp-errors.ts` (missing from the
snapshot) maps the provider's numeric error code to a normalized
`(category, userMessage, retryable)` triple via a static lookup table.
Code 131042 is a payment failure (cf. the repository docs:
`mapWhatsAppError(131042)` yields the `payment` category) and 190 an
authorization failure; both are the critical categories of the spec. -/
def mapWhatsAppError (code : Nat) : MappedError :=
  if code = 131042 then
    { category := "payment", userMessage := "Problema de pagamento na conta", retryable := false, action := "Verifique o metodo de pagamento" }
  else if code = 190 then
    { category := "auth", userMessage := "Token de acesso invalido", retryable := false, action := "Reconecte a conta" }
  else
    { category := "other", userMessage := "Erro desconhecido", retryable := false, action := "" }

/-- Modelled from the spec: critical codes are the payment/authorization
failures of the static table. -/
def isCriticalError (code : Nat) : Bool :=
  decide (code = 131042) || decide (code = 190)

/-- Modelled from the spec: user-facing message for a provider error code,
empty/absent for unknown codes (the workflow falls back to the original
provider message via `|| originalError`). -/
def getUserFriendlyMessage (code : Nat) : Option String :=
  if code = 131042 ∨ code = 190 then some (mapWhatsAppError code).userMessage else none

/-! ## Status Reconciler (webhook `POST` handler) -/

/-- One `statusUpdate` from the webhook payload:
`{ id: messageId, status: msgStatus, errors }`, with
`errors?.[0]?.code || 0` and the title/details strings. -/
structure StatusUpdate where
  messageId : String
  msgStatus : WStatus
  errorCode : Nat
  errorTitle : String
  errorDetails : String
deriving DecidableEq, Repr

/-- `statusOrder = { pending: 0, sent: 1, delivered: 2, read: 3, failed: 4 }`
applied to a stored contact status (`?? 0` can not fire: all five stored
values are keys). -/
def statusOrderRec : RecStatus → Nat
  | RecStatus.pending => 0
  | RecStatus.sent => 1
  | RecStatus.delivered => 2
  | RecStatus.read => 3
  | RecStatus.failed => 4

/-- `statusOrder[msgStatus] ?? 0` applied to the incoming status string:
unknown strings default to 0. -/
def statusOrderW : WStatus → Nat
  | WStatus.sent => 1
  | WStatus.delivered => 2
  | WStatus.read => 3
  | WStatus.failed => 4
  | WStatus.other _ => 0

/-- Rows with the given `message_id`. -/
def rowsByMessageId (contacts : List ContactRecord) (mid : String) : List ContactRecord :=
  contacts.filter (fun c => decide (c.messageId = some mid))

/-- `supabase.from('campaign_contacts').select(..).eq('message_id', mid).single()`:
`.single()` yields a row exactly when one row matches; with zero or several
matches it errors and the handler sees `data = null`. -/
def findByMessageId (contacts : List ContactRecord) (mid : String) : Option ContactRecord :=
  match rowsByMessageId contacts mid with
  | [r] => some r
  | _ => none

/-- Match condition of the `delivered` conditional update:
`.eq('phone', phone).neq('status','delivered').neq('status','read')`
(the `campaign_id` filter is implicit: the model holds one campaign). -/
def deliveredCond (phone : String) (c : ContactRecord) : Bool :=
  decide (c.phone = phone ∧ c.status ≠ RecStatus.delivered ∧ c.status ≠ RecStatus.read)

/-- Match condition of the `read` conditional update:
`.eq('phone', phone).neq('status','read')`. -/
def readCond (phone : String) (c : ContactRecord) : Bool :=
  decide (c.phone = phone ∧ c.status ≠ RecStatus.read)

/-- Match condition of the `failed` conditional update:
`.eq('phone', phone).neq('status','failed')`. -/
def failedCond (phone : String) (c : ContactRecord) : Bool :=
  decide (c.phone = phone ∧ c.status ≠ RecStatus.failed)

/-- `update({ dismissed: true }).eq('type','payment').eq('dismissed', false)`
on `account_alerts`. -/
def dismissPaymentAlerts (alerts : List Alert) : List Alert :=
  alerts.map fun a =>
    if a.type = "payment" ∧ a.dismissed = false then { a with dismissed := true } else a

/-- The `id` written by the critical-error alert:
``alert_${errorCode}_${Date.now()}``. -/
def alertKey (code : Nat) (now : Nat) : String :=
  "alert_" ++ toString code ++ "_" ++ toString now

/-- Supabase `upsert` on the `account_alerts` primary key `id`: replace the
matching row when one exists, insert otherwise. -/
def upsertAlert (alerts : List Alert) (a : Alert) : List Alert :=
  if alerts.any (fun b => decide (b.id = a.id)) then
    alerts.map (fun b => if b.id = a.id then a else b)
  else
    alerts ++ [a]

/-- Row effect of `update({ status: 'delivered', delivered_at: now })` on a
row matched by the `delivered` conditional update. -/
def deliveredUpdate (now : Nat) (phone : String) (c : ContactRecord) : ContactRecord :=
  if deliveredCond phone c then
    { c with status := RecStatus.delivered, deliveredAt := some now }
  else c

/-- Row effect of `update({ status: 'read', read_at: now })` on a row
matched by the `read` conditional update. -/
def readUpdate (now : Nat) (phone : String) (c : ContactRecord) : ContactRecord :=
  if readCond phone c then
    { c with status := RecStatus.read, readAt := some now }
  else c

/-- Row effect of the `failed` conditional update
(`status, failed_at, failure_code, failure_reason`). -/
def failedUpdate (now : Nat) (phone : String) (errorCode : Nat) (c : ContactRecord) :
    ContactRecord :=
  if failedCond phone c then
    { c with status := RecStatus.failed, failedAt := some now,
             failureCode := some errorCode,
             failureReason := some (mapWhatsAppError errorCode).userMessage }
  else c

/-- The `account_alerts` row upserted for a critical error (its `details`
JSON is modelled as plain concatenation). -/
def criticalAlert (now : Nat) (errorCode : Nat) (errorTitle errorDetails : String) : Alert :=
  { id := alertKey errorCode now, type := (mapWhatsAppError errorCode).category,
    code := errorCode, message := (mapWhatsAppError errorCode).userMessage,
    details := errorTitle ++ "|" ++ errorDetails ++ "|" ++ (mapWhatsAppError errorCode).action,
    createdAt := now, dismissed := false }

/-- `case 'delivered'` of the handler: conditional update of the contact
row, counter read-modify-write gated on the affected rows, and the
auto-dismissal of payment alerts. -/
def applyDelivered (now : Nat) (db : DB) (phone : String) : DB :=
  let updatedRows := db.contacts.filter (deliveredCond phone)
  let contacts' := db.contacts.map (deliveredUpdate now phone)
  if updatedRows.length > 0 then
    { campaign := { db.campaign with delivered := db.campaign.delivered + 1 },
      contacts := contacts',
      alerts := dismissPaymentAlerts db.alerts }
  else
    { db with contacts := contacts' }

/-- `case 'read'` of the handler. -/
def applyRead (now : Nat) (db : DB) (phone : String) : DB :=
  let updatedRows := db.contacts.filter (readCond phone)
  let contacts' := db.contacts.map (readUpdate now phone)
  if updatedRows.length > 0 then
    { campaign := { db.campaign with read := db.campaign.read + 1 },
      contacts := contacts',
      alerts := db.alerts }
  else
    { db with contacts := contacts' }

/-- `case 'failed'` of the handler: conditional update with failure
details, counter increment gated on the affected rows, and the
critical-error alert upsert (which is NOT gated on the affected rows). -/
def applyFailed (now : Nat) (db : DB) (phone : String) (errorCode : Nat)
    (errorTitle errorDetails : String) : DB :=
  let updatedRows := db.contacts.filter (failedCond phone)
  let contacts' := db.contacts.map (failedUpdate now phone errorCode)
  let campaign' :=
    if updatedRows.length > 0 then { db.campaign with failed := db.campaign.failed + 1 }
    else db.campaign
  let alerts' :=
    if isCriticalError errorCode then
      upsertAlert db.alerts (criticalAlert now errorCode errorTitle errorDetails)
    else db.alerts
  { campaign := campaign', contacts := contacts', alerts := alerts' }

/-- One `statusUpdate` processed by the webhook `POST` handler: look up the
row by `message_id` (skip when absent), apply the
`newOrder <= currentOrder && msgStatus !== 'failed'` idempotency guard,
then dispatch on the status (`case 'sent'` only logs; the second
`contactInfo` lookup by the same `message_id` returns the same row in the
sequential model and is collapsed). -/
def applyStatus (now : Nat) (db : DB) (u : StatusUpdate) : DB :=
  match findByMessageId db.contacts u.messageId with
  | none => db
  | some existingUpdate =>
    let currentOrder := statusOrderRec existingUpdate.status
    let newOrder := statusOrderW u.msgStatus
    if newOrder ≤ currentOrder ∧ u.msgStatus ≠ WStatus.failed then db
    else
      match u.msgStatus with
      | WStatus.sent => db
      | WStatus.delivered => applyDelivered now db existingUpdate.phone
      | WStatus.read => applyRead now db existingUpdate.phone
      | WStatus.failed =>
          applyFailed now db existingUpdate.phone u.errorCode u.errorTitle u.errorDetails
      | WStatus.other _ => db

/-- A sequence of delivery-receipt events, each with the clock value at
which it is processed, applied in arrival order. -/
def applyEvents (db : DB) (events : List (Nat × StatusUpdate)) : DB :=
  events.foldl (fun s tu => applyStatus tu.1 s tu.2) db

/-! ## Rate/Window helpers (`lib/data/campaigns.ts`) -/

/-- The Upstash Redis keyspace (keys whose TTL has not expired).  `none`
models `redisClient = null`, i.e. the backing store not configured. -/
structure RedisState where
  keys : List String
deriving DecidableEq, Repr

/-- `redis.exists(key)`: number of existing keys among the arguments. -/
def redisExists (st : RedisState) (key : String) : Nat :=
  if key ∈ st.keys then 1 else 0

/-- `checkPairRateLimit`: `true` when the caller may send now.
`if (!redisClient) return true` — fails open without Redis; otherwise the
`ratelimit:` pair key must be absent (`exists === 0`). -/
def checkPairRateLimit (redisClient : Option RedisState)
    (phoneNumberId recipientPhone : String) : Bool :=
  match redisClient with
  | none => true
  | some st =>
      decide (redisExists st ("ratelimit:" ++ phoneNumberId ++ ":" ++ recipientPhone) = 0)

/-- `checkCSW`: `true` when the 24-hour customer-service window is open.
`if (!redisClient) return false` — fails closed without Redis; otherwise
the `csw:` pair key must be present (`exists === 1`). -/
def checkCSW (redisClient : Option RedisState)
    (phoneNumberId recipientPhone : String) : Bool :=
  match redisClient with
  | none => false
  | some st =>
      decide (redisExists st ("csw:" ++ phoneNumberId ++ ":" ++ recipientPhone) = 1)

/-! ## Campaign Orchestrator and Batch Sender (campaign workflow `POST`) -/

/-- Entry of the workflow's `contacts` payload. -/
structure Contact where
  phone : String
  name : String
deriving DecidableEq, Repr

/-- Outcome of one WhatsApp Cloud API send call (`fetch` + `response.json()`):
`success` when `response.ok && data.messages?.[0]?.id`, `apiError` with the
provider error payload otherwise, `thrown` when the call raises. -/
inductive SendResult
  | success (messageId : String)
  | apiError (errorCode : Nat) (errorMessage : String)
  | thrown (errorMessage : String)
deriving DecidableEq, Repr

/-- External environment of one workflow run: the (deterministic) outcome
of the send call per contact, and the result of the campaign-status read
performed before the k-th processed recipient (`true` = the row read was
`PAUSED`; the status is mutated concurrently by the pause UI, hence the
oracle indexed by read number). -/
structure SendEnv where
  send : Contact → SendResult
  pausedRead : Nat → Bool

/-- `(#${errorCode}) ${translatedError}` with
`getUserFriendlyMessage(errorCode) || originalError`. -/
def errorWithCode (errorCode : Nat) (originalError : String) : String :=
  "(#" ++ toString errorCode ++ ") " ++ ((getUserFriendlyMessage errorCode).getD originalError)

/-- `updateContactStatus(campaignId, phone, status, messageId?, error?)`:
sets `status`, `sent_at`, `message_id` and `error` on the rows matching
`campaign_id` and `phone`. -/
def updateContactStatus (now : Nat) (contacts : List ContactRecord) (phone : String)
    (st : RecStatus) (messageId : Option String) (err : Option String) :
    List ContactRecord :=
  contacts.map fun c =>
    if c.phone = phone then
      { c with status := st, sentAt := some now, messageId := messageId, error := err }
    else c

/-- State threaded through the workflow: the campaign row, the contact
rows, the phones the send API has been invoked for (in order), and the
number of campaign-status reads done so far. -/
structure RunState where
  campaign : Campaign
  contacts : List ContactRecord
  calls : List String
  reads : Nat
deriving Repr

/-- The `for (const contact of batch)` loop of one `send-batch-*` step:
check the campaign status (a `PAUSED` read `break`s, skipping the rest of
the batch), call the send API, record the per-contact outcome, and
accumulate `sentCount` / `failedCount`.  A `thrown` outcome is the `catch`
branch (the send call itself raised); the call is still counted as
invoked. -/
def sendLoop (env : SendEnv) (now : Nat) :
    List Contact → RunState → Nat → Nat → RunState × Nat × Nat
  | [], st, sentCount, failedCount => (st, sentCount, failedCount)
  | contact :: rest, st, sentCount, failedCount =>
      if env.pausedRead st.reads then
        ({ st with reads := st.reads + 1 }, sentCount, failedCount)
      else
        let st := { st with reads := st.reads + 1 }
        match env.send contact with
        | SendResult.success messageId =>
            sendLoop env now rest
              { st with
                  contacts := updateContactStatus now st.contacts contact.phone
                    RecStatus.sent (some messageId) none,
                  calls := st.calls ++ [contact.phone] }
              (sentCount + 1) failedCount
        | SendResult.apiError errorCode errorMessage =>
            sendLoop env now rest
              { st with
                  contacts := updateContactStatus now st.contacts contact.phone
                    RecStatus.failed none (some (errorWithCode errorCode errorMessage)),
                  calls := st.calls ++ [contact.phone] }
              sentCount (failedCount + 1)
        | SendResult.thrown errorMessage =>
            sendLoop env now rest
              { st with
                  contacts := updateContactStatus now st.contacts contact.phone
                    RecStatus.failed none (some errorMessage),
                  calls := st.calls ++ [contact.phone] }
              sentCount (failedCount + 1)

/-- One `send-batch-${batchIndex}` workflow step: run the loop, then add
the accumulated deltas to the campaign counters
(`sent: campaign.sent + sentCount, failed: campaign.failed + failedCount`). -/
def sendBatch (env : SendEnv) (now : Nat) (batch : List Contact) (st : RunState) : RunState :=
  match sendLoop env now batch st 0 0 with
  | (st', sentCount, failedCount) =>
      { st' with campaign :=
          { st'.campaign with
              sent := st'.campaign.sent + sentCount,
              failed := st'.campaign.failed + failedCount } }

/-- `BATCH_SIZE = 40`. -/
def BATCH_SIZE : Nat := 40

/-- `for (let i = 0; i < contacts.length; i += BATCH_SIZE) batches.push(contacts.slice(i, i + BATCH_SIZE))`. -/
def buildBatches (l : List Contact) : List (List Contact) :=
  if l = [] then []
  else l.take BATCH_SIZE :: buildBatches (l.drop BATCH_SIZE)
termination_by l.length
decreasing_by
  simp only [List.length_drop, BATCH_SIZE]
  cases l with
  | nil => simp_all
  | cons a as => simp only [List.length_cons]; omega

/-- The sequence of `send-batch-*` steps. -/
def runBatches (env : SendEnv) (now : Nat) (batches : List (List Contact))
    (st : RunState) : RunState :=
  batches.foldl (fun s batch => sendBatch env now batch s) st

/-- Step 1 `init-campaign`:
`campaignDb.updateStatus(campaignId, { status: SENDING, startedAt: now })`.
`campaignDb.updateStatus` (in `lib/supabase-db`, not part of the snapshot)
is a plain partial row update, as its other call sites show (it is also
invoked with counter-only payloads and with the terminal status); the
write is unconditional. -/
def initCampaign (now : Nat) (c : Campaign) : Campaign :=
  { c with status := CampaignStatus.sending, startedAt := some now }

/-- Step 3 `complete-campaign`: re-read the campaign, pick
`FAILED` when `campaign.failed === campaign.recipients && campaign.recipients > 0`
and `COMPLETED` otherwise, and record `completedAt`. -/
def completeCampaignStep (now : Nat) (c : Campaign) : Campaign :=
  let finalStatus :=
    if c.failed = c.recipients ∧ 0 < c.recipients then CampaignStatus.failed
    else CampaignStatus.completed
  { c with status := finalStatus, completedAt := some now }

/-- The whole workflow `Run(campaignId)`: init step, the batch steps over
the payload partitioned in batches of 40, and the completion step. -/
def runCampaign (env : SendEnv) (now : Nat) (payload : List Contact) (st : RunState) : RunState :=
  let st1 := { st with campaign := initCampaign now st.campaign }
  let st2 := runBatches env now (buildBatches payload) st1
  { st2 with campaign := completeCampaignStep now st2.campaign }

/-! ## Webhook request/response contract -/

/-- An inbound webhook request body: either text that fails JSON parsing,
or a parsed JSON object with its `object` field and the status updates
nested under `entry[].changes[].value.statuses[]`. -/
inductive WebhookBody
  | malformed
  | json (objectField : String) (events : List StatusUpdate)
deriving Repr

/-- What the `POST` route produces for the provider: a response with an
HTTP status, or an exception that escapes the handler (the framework then
answers with an error status, not a success acknowledgment). -/
inductive HttpOutcome
  | ok (status : Nat) (body : String)
  | thrown
deriving DecidableEq, Repr

/-- The webhook `POST` handler: `await request.json()` runs before any
try/catch, so a malformed body raises out of the handler; a parsed body
with the wrong `object` is acknowledged `{ status: 'ignored' }`; otherwise
the status updates are processed inside the try/catch and the handler
always answers 200 `{ status: 'ok' }`. -/
def webhookPOST (now : Nat) (db : DB) (b : WebhookBody) : HttpOutcome × DB :=
  match b with
  | WebhookBody.malformed => (HttpOutcome.thrown, db)
  | WebhookBody.json objectField events =>
      if objectField ≠ "whatsapp_business_account" then
        (HttpOutcome.ok 200 "ignored", db)
      else
        (HttpOutcome.ok 200 "ok", events.foldl (fun s u => applyStatus now s u) db)

/-! ## Concrete fixtures used by witnesses and counterexamples -/

/-- A contact row whose send succeeded (status `sent`, provider message id
`m1`). -/
def sampleRec : ContactRecord :=
  { phone := "5511999990001", messageId := some "m1", status := RecStatus.sent,
    sentAt := some 1, deliveredAt := none, readAt := none, failedAt := none,
    error := none, failureCode := none, failureReason := none }

/-- A campaign mid-send. -/
def sampleCampaign : Campaign :=
  { status := CampaignStatus.sending, recipients := 2, sent := 1, delivered := 0,
    read := 0, failed := 0, startedAt := some 0, completedAt := none }

/-- Reconciler state with one sent recipient and no alerts. -/
def sampleDB : DB :=
  { campaign := sampleCampaign, contacts := [sampleRec], alerts := [] }

/-- A `delivered` receipt for `m1`. -/
def evDelivered : StatusUpdate :=
  { messageId := "m1", msgStatus := WStatus.delivered, errorCode := 0,
    errorTitle := "", errorDetails := "" }

/-- A `read` receipt for `m1`. -/
def evRead : StatusUpdate :=
  { messageId := "m1", msgStatus := WStatus.read, errorCode := 0,
    errorTitle := "", errorDetails := "" }

/-- The sample contact row after a `read` receipt was applied. -/
def sampleRecRead : ContactRecord :=
  { sampleRec with status := RecStatus.read, readAt := some 2 }

/-- Reconciler state whose only record is already `read`. -/
def sampleDBRead : DB :=
  { campaign := sampleCampaign, contacts := [sampleRecRead], alerts := [] }

/-- A `failed` receipt for `m1` with the critical payment error code. -/
def evFailedCritical : StatusUpdate :=
  { messageId := "m1", msgStatus := WStatus.failed, errorCode := 131042,
    errorTitle := "Payment issue", errorDetails := "details" }

/-- A send environment where every API call succeeds and no pause is ever
observed. -/
def envAllSuccess : SendEnv :=
  { send := fun c => SendResult.success ("wamid." ++ c.phone),
    pausedRead := fun _ => false }

/-- A send environment where the status read before the second recipient
(read number 1) observes `PAUSED`. -/
def envPausedAtOne : SendEnv :=
  { send := fun c => SendResult.success ("wamid." ++ c.phone),
    pausedRead := fun k => decide (k = 1) }

/-- Orchestrator state for a fresh two-recipient run. -/
def sampleRunState : RunState :=
  { campaign := sampleCampaign, contacts := [], calls := [], reads := 0 }

/-- Orchestrator state whose campaign is already `Sending` (not in a
startable state). -/
def runStateSending : RunState :=
  { campaign := sampleCampaign, contacts := [], calls := [], reads := 0 }

/-- The 100-recipient payload of the resumability scenario. -/
def payload100 : List Contact :=
  (List.range 100).map fun i => { phone := "p" ++ toString i, name := "n" }

/-- 100 delivery records of which the first 40 are already non-pending
(`sent`). -/
def contacts100 : List ContactRecord :=
  (List.range 100).map fun i =>
    { phone := "p" ++ toString i,
      messageId := if i < 40 then some ("wamid." ++ toString i) else none,
      status := if i < 40 then RecStatus.sent else RecStatus.pending,
      sentAt := if i < 40 then some 0 else none,
      deliveredAt := none, readAt := none, failedAt := none,
      error := none, failureCode := none, failureReason := none }

/-- Orchestrator state of the partially-sent 100-recipient campaign. -/
def runState100 : RunState :=
  { campaign :=
      { status := CampaignStatus.sending, recipients := 100, sent := 40,
        delivered := 0, read := 0, failed := 0, startedAt := some 0,
        completedAt := none },
    contacts := contacts100, calls := [], reads := 0 }

/-- Two contacts with the same phone (two sends to the same recipient
within the cooldown window). -/
def duplicateContacts : List Contact :=
  [{ phone := "5511999990001", name := "a" }, { phone := "5511999990001", name := "a" }]

/-- Two distinct contacts forming one batch. -/
def twoContacts : List Contact :=
  [{ phone := "pA", name := "a" }, { phone := "pB", name := "b" }]

/-! ## Helper lemmas -/

/-- The send loop invokes the API for every recipient of the batch, in
order, when no status read observes `PAUSED`. -/
theorem sendLoop_calls_unpaused (env : SendEnv) (now : Nat)
    (h : ∀ k, env.pausedRead k = false) :
    ∀ (batch : List Contact) (st : RunState) (s f : Nat),
      (sendLoop env now batch st s f).1.calls = st.calls ++ batch.map (fun c => c.phone) := by
  intro batch
  induction batch with
  | nil => intro st s f; simp [sendLoop]
  | cons c rest ih =>
      intro st s f
      simp only [sendLoop, h]
      cases env.send c with
      | success mid => simp [ih, List.append_assoc]
      | apiError code msg => simp [ih, List.append_assoc]
      | thrown msg => simp [ih, List.append_assoc]

/-- One batch step appends exactly its batch's phones to the call list
when unpaused. -/
theorem sendBatch_calls_unpaused (env : SendEnv) (now : Nat)
    (h : ∀ k, env.pausedRead k = false) (batch : List Contact) (st : RunState) :
    (sendBatch env now batch st).calls = st.calls ++ batch.map (fun c => c.phone) := by
  unfold sendBatch
  have := sendLoop_calls_unpaused env now h batch st 0 0
  rcases hloop : sendLoop env now batch st 0 0 with ⟨st', s, f⟩
  rw [hloop] at this
  simpa using this

/-- The batch steps together call every phone of the concatenation of the
batches when unpaused. -/
theorem runBatches_calls_unpaused (env : SendEnv) (now : Nat)
    (h : ∀ k, env.pausedRead k = false) :
    ∀ (batches : List (List Contact)) (st : RunState),
      (runBatches env now batches st).calls
        = st.calls ++ batches.flatten.map (fun c => c.phone) := by
  intro batches
  induction batches with
  | nil => intro st; simp [runBatches]
  | cons b bs ih =>
      intro st
      simp only [runBatches, List.foldl_cons]
      have hb := sendBatch_calls_unpaused env now h b st
      have := ih (sendBatch env now b st)
      simp only [runBatches] at this
      rw [this, hb]
      simp [List.append_assoc]

/-- `buildBatches` partitions the payload: concatenating the batches gives
back the payload. -/
theorem buildBatches_join : ∀ l : List Contact, (buildBatches l).flatten = l := by
  intro l
  induction l using buildBatches.induct with
  | case1 => simp [buildBatches]
  | case2 l hne ih =>
      rw [buildBatches, if_neg hne]
      simp [ih]

/-- The whole workflow invokes the send API for every contact of the
payload, in payload order, when no pause is observed — it never consults
the stored `DeliveryRecord` statuses. -/
theorem runCampaign_calls_unpaused (env : SendEnv) (now : Nat)
    (h : ∀ k, env.pausedRead k = false) (payload : List Contact) (st : RunState) :
    (runCampaign env now payload st).calls = st.calls ++ payload.map (fun c => c.phone) := by
  unfold runCampaign
  simp only []
  rw [runBatches_calls_unpaused env now h]
  simp [buildBatches_join]

/-- The send loop performs one campaign-status read per processed
recipient (the pause check sits inside the per-recipient loop). -/
theorem sendLoop_reads_unpaused (env : SendEnv) (now : Nat)
    (h : ∀ k, env.pausedRead k = false) :
    ∀ (batch : List Contact) (st : RunState) (s f : Nat),
      (sendLoop env now batch st s f).1.reads = st.reads + batch.length := by
  intro batch
  induction batch with
  | nil => intro st s f; simp [sendLoop]
  | cons c rest ih =>
      intro st s f
      simp only [sendLoop, h]
      cases env.send c with
      | success mid => simp [ih]; omega
      | apiError code msg => simp [ih]; omega
      | thrown msg => simp [ih]; omega

theorem rowsByMessageId_map (l : List ContactRecord) (mid : String)
    (f : ContactRecord → ContactRecord) (hf : ∀ c, (f c).messageId = c.messageId) :
    rowsByMessageId (l.map f) mid = (rowsByMessageId l mid).map f := by
  unfold rowsByMessageId
  rw [List.filter_map]
  congr 1
  apply List.filter_congr
  intro c _
  simp [hf]

theorem findByMessageId_eq_some_iff {l : List ContactRecord} {mid : String}
    {r : ContactRecord} :
    findByMessageId l mid = some r ↔ rowsByMessageId l mid = [r] := by
  unfold findByMessageId
  rcases h : rowsByMessageId l mid with _ | ⟨a, _ | ⟨b, t⟩⟩ <;> simp

theorem findByMessageId_map (l : List ContactRecord) (mid : String)
    (f : ContactRecord → ContactRecord) (hf : ∀ c, (f c).messageId = c.messageId) :
    findByMessageId (l.map f) mid = (findByMessageId l mid).map f := by
  unfold findByMessageId
  rw [rowsByMessageId_map l mid f hf]
  rcases rowsByMessageId l mid with _ | ⟨a, _ | ⟨b, t⟩⟩ <;> simp

theorem mem_of_findByMessageId {l : List ContactRecord} {mid : String}
    {r : ContactRecord} (h : findByMessageId l mid = some r) : r ∈ l := by
  have h2 := findByMessageId_eq_some_iff.mp h
  have hmem : r ∈ rowsByMessageId l mid := by rw [h2]; exact List.mem_cons_self r []
  exact (List.mem_filter.mp hmem).1

theorem filter_length_pos_of_mem {l : List ContactRecord}
    {p : ContactRecord → Bool} {r : ContactRecord} (hr : r ∈ l) (hp : p r = true) :
    (l.filter p).length > 0 :=
  List.length_pos.mpr (List.ne_nil_of_mem (List.mem_filter.mpr ⟨hr, hp⟩))

theorem deliveredUpdate_messageId (now : Nat) (phone : String) (c : ContactRecord) :
    (deliveredUpdate now phone c).messageId = c.messageId := by
  unfold deliveredUpdate; split <;> rfl

theorem readUpdate_messageId (now : Nat) (phone : String) (c : ContactRecord) :
    (readUpdate now phone c).messageId = c.messageId := by
  unfold readUpdate; split <;> rfl

theorem failedUpdate_messageId (now : Nat) (phone : String) (ec : Nat) (c : ContactRecord) :
    (failedUpdate now phone ec c).messageId = c.messageId := by
  unfold failedUpdate; split <;> rfl

theorem deliveredUpdate_phone (now : Nat) (phone : String) (c : ContactRecord) :
    (deliveredUpdate now phone c).phone = c.phone := by
  unfold deliveredUpdate; split <;> rfl

theorem readUpdate_phone (now : Nat) (phone : String) (c : ContactRecord) :
    (readUpdate now phone c).phone = c.phone := by
  unfold readUpdate; split <;> rfl

theorem failedUpdate_phone (now : Nat) (phone : String) (ec : Nat) (c : ContactRecord) :
    (failedUpdate now phone ec c).phone = c.phone := by
  unfold failedUpdate; split <;> rfl

theorem applyDelivered_contacts (now : Nat) (db : DB) (phone : String) :
    (applyDelivered now db phone).contacts = db.contacts.map (deliveredUpdate now phone) := by
  unfold applyDelivered
  dsimp only
  split <;> rfl

theorem applyRead_contacts (now : Nat) (db : DB) (phone : String) :
    (applyRead now db phone).contacts = db.contacts.map (readUpdate now phone) := by
  unfold applyRead
  dsimp only
  split <;> rfl

theorem applyFailed_contacts (now : Nat) (db : DB) (phone : String) (ec : Nat)
    (ti td : String) :
    (applyFailed now db phone ec ti td).contacts
      = db.contacts.map (failedUpdate now phone ec) := rfl

theorem applyDelivered_campaign (now : Nat) (db : DB) (phone : String) :
    (applyDelivered now db phone).campaign
      = (if (db.contacts.filter (deliveredCond phone)).length > 0
         then { db.campaign with delivered := db.campaign.delivered + 1 }
         else db.campaign) := by
  unfold applyDelivered
  dsimp only
  split <;> rfl

theorem applyRead_campaign (now : Nat) (db : DB) (phone : String) :
    (applyRead now db phone).campaign
      = (if (db.contacts.filter (readCond phone)).length > 0
         then { db.campaign with read := db.campaign.read + 1 }
         else db.campaign) := by
  unfold applyRead
  dsimp only
  split <;> rfl

theorem applyFailed_campaign (now : Nat) (db : DB) (phone : String) (ec : Nat)
    (ti td : String) :
    (applyFailed now db phone ec ti td).campaign
      = (if (db.contacts.filter (failedCond phone)).length > 0
         then { db.campaign with failed := db.campaign.failed + 1 }
         else db.campaign) := rfl

theorem applyFailed_alerts (now : Nat) (db : DB) (phone : String) (ec : Nat)
    (ti td : String) :
    (applyFailed now db phone ec ti td).alerts
      = (if isCriticalError ec
         then upsertAlert db.alerts (criticalAlert now ec ti td)
         else db.alerts) := rfl

/-- When the `message_id` lookup finds no row the event is skipped. -/
theorem applyStatus_none {now : Nat} {db : DB} {u : StatusUpdate}
    (h : findByMessageId db.contacts u.messageId = none) :
    applyStatus now db u = db := by
  unfold applyStatus
  rw [h]

/-- The idempotency guard: a non-`failed` event whose rank does not exceed
the stored rank is discarded, leaving the whole state untouched. -/
theorem applyStatus_skip {now : Nat} {db : DB} {u : StatusUpdate} {r : ContactRecord}
    (h : findByMessageId db.contacts u.messageId = some r)
    (hne : u.msgStatus ≠ WStatus.failed)
    (hr : statusOrderW u.msgStatus ≤ statusOrderRec r.status) :
    applyStatus now db u = db := by
  unfold applyStatus
  rw [h]
  simp only []
  rw [if_pos ⟨hr, hne⟩]

/-- `case 'sent'` only logs: the state is unchanged whether or not the
guard fires. -/
theorem applyStatus_sent {now : Nat} {db : DB} {u : StatusUpdate} {r : ContactRecord}
    (h : findByMessageId db.contacts u.messageId = some r)
    (hu : u.msgStatus = WStatus.sent) :
    applyStatus now db u = db := by
  unfold applyStatus
  rw [h]
  simp only [hu]
  split <;> rfl

/-- An unknown status string is always discarded (its rank defaults to
0, so the guard fires; and the `switch` has no matching case anyway). -/
theorem applyStatus_other {now : Nat} {db : DB} {u : StatusUpdate} {r : ContactRecord}
    {s : String} (h : findByMessageId db.contacts u.messageId = some r)
    (hu : u.msgStatus = WStatus.other s) :
    applyStatus now db u = db := by
  unfold applyStatus
  rw [h]
  simp only [hu]
  split <;> rfl

/-- A `delivered` event that passes the guard runs the `delivered`
branch against the found row's phone. -/
theorem applyStatus_delivered_eq {now : Nat} {db : DB} {u : StatusUpdate}
    {r : ContactRecord} (h : findByMessageId db.contacts u.messageId = some r)
    (hu : u.msgStatus = WStatus.delivered)
    (hr : statusOrderRec r.status < statusOrderW WStatus.delivered) :
    applyStatus now db u = applyDelivered now db r.phone := by
  unfold applyStatus
  rw [h]
  simp only [hu]
  rw [if_neg (fun hc => absurd hc.1 (Nat.not_le.mpr hr))]

/-- A `read` event that passes the guard runs the `read` branch. -/
theorem applyStatus_read_eq {now : Nat} {db : DB} {u : StatusUpdate}
    {r : ContactRecord} (h : findByMessageId db.contacts u.messageId = some r)
    (hu : u.msgStatus = WStatus.read)
    (hr : statusOrderRec r.status < statusOrderW WStatus.read) :
    applyStatus now db u = applyRead now db r.phone := by
  unfold applyStatus
  rw [h]
  simp only [hu]
  rw [if_neg (fun hc => absurd hc.1 (Nat.not_le.mpr hr))]

/-- A `failed` event always bypasses the guard and runs the `failed`
branch. -/
theorem applyStatus_failed_eq {now : Nat} {db : DB} {u : StatusUpdate}
    {r : ContactRecord} (h : findByMessageId db.contacts u.messageId = some r)
    (hu : u.msgStatus = WStatus.failed) :
    applyStatus now db u
      = applyFailed now db r.phone u.errorCode u.errorTitle u.errorDetails := by
  unfold applyStatus
  rw [h]
  simp only [hu]
  rw [if_neg (fun hc => hc.2 rfl)]

/-- A row whose rank is below `delivered` is matched by the `delivered`
conditional update. -/
theorem deliveredCond_self {r : ContactRecord}
    (hr : statusOrderRec r.status < statusOrderW WStatus.delivered) :
    deliveredCond r.phone r = true := by
  apply decide_eq_true
  refine ⟨rfl, ?_, ?_⟩
  · intro he; rw [he] at hr; exact absurd hr (by decide)
  · intro he; rw [he] at hr; exact absurd hr (by decide)

/-- A row whose rank is below `read` is matched by the `read` conditional
update. -/
theorem readCond_self {r : ContactRecord}
    (hr : statusOrderRec r.status < statusOrderW WStatus.read) :
    readCond r.phone r = true := by
  apply decide_eq_true
  refine ⟨rfl, ?_⟩
  intro he; rw [he] at hr; exact absurd hr (by decide)

theorem deliveredUpdate_self_status {r : ContactRecord} (now : Nat)
    (hr : statusOrderRec r.status < statusOrderW WStatus.delivered) :
    (deliveredUpdate now r.phone r).status = RecStatus.delivered := by
  unfold deliveredUpdate
  rw [if_pos (deliveredCond_self hr)]

theorem readUpdate_self_status {r : ContactRecord} (now : Nat)
    (hr : statusOrderRec r.status < statusOrderW WStatus.read) :
    (readUpdate now r.phone r).status = RecStatus.read := by
  unfold readUpdate
  rw [if_pos (readCond_self hr)]

theorem failedUpdate_self_status (now ec : Nat) (r : ContactRecord) :
    (failedUpdate now r.phone ec r).status = RecStatus.failed := by
  unfold failedUpdate failedCond
  by_cases h : r.status = RecStatus.failed
  · simp [h]
  · simp [h]

/-- After the `failed` conditional update ran over the table, no row of
the same phone still matches it. -/
theorem failedCond_after_update (t1 : Nat) (phone : String) (ec : Nat)
    (c : ContactRecord) :
    failedCond phone (failedUpdate t1 phone ec c) = false := by
  unfold failedUpdate
  by_cases h : failedCond phone c = true
  · rw [if_pos h]
    simp [failedCond]
  · rw [if_neg h]
    simpa using h

theorem map_eq_self_of_no_hit {α : Type} {l : List α}
    {f : α → α} (h : ∀ c ∈ l, f c = c) : l.map f = l := by
  rw [List.map_congr_left h]
  exact List.map_id' l

/-- Increment of the `delivered` counter when the found row itself is
matched by the conditional update. -/
theorem applyDelivered_count (now : Nat) (db : DB) {r : ContactRecord}
    (hmem : r ∈ db.contacts) (hc : deliveredCond r.phone r = true) :
    (applyDelivered now db r.phone).campaign.delivered = db.campaign.delivered + 1 := by
  rw [applyDelivered_campaign, if_pos (filter_length_pos_of_mem hmem hc)]

/-- Core replay safety: re-processing the same delivery-receipt event,
at any later clock value, leaves the campaign row and the contact rows
exactly as after the first processing. -/
theorem applyStatus_idem (t1 t2 : Nat) (db : DB) (u : StatusUpdate) :
    (applyStatus t2 (applyStatus t1 db u) u).campaign = (applyStatus t1 db u).campaign
    ∧ (applyStatus t2 (applyStatus t1 db u) u).contacts = (applyStatus t1 db u).contacts := by
  rcases hfind : findByMessageId db.contacts u.messageId with _ | r
  · rw [applyStatus_none hfind, applyStatus_none hfind]
    exact ⟨rfl, rfl⟩
  · cases hu : u.msgStatus with
    | sent =>
        rw [applyStatus_sent hfind hu, applyStatus_sent hfind hu]
        exact ⟨rfl, rfl⟩
    | other s =>
        rw [applyStatus_other hfind hu, applyStatus_other hfind hu]
        exact ⟨rfl, rfl⟩
    | delivered =>
        by_cases hr : statusOrderW WStatus.delivered ≤ statusOrderRec r.status
        · have hne : u.msgStatus ≠ WStatus.failed := by rw [hu]; simp
          have hr' : statusOrderW u.msgStatus ≤ statusOrderRec r.status := by
            rw [hu]; exact hr
          rw [applyStatus_skip hfind hne hr', applyStatus_skip hfind hne hr']
          exact ⟨rfl, rfl⟩
        · have hrlt := Nat.not_le.mp hr
          rw [applyStatus_delivered_eq hfind hu hrlt]
          have hfind2 : findByMessageId (applyDelivered t1 db r.phone).contacts u.messageId
              = some (deliveredUpdate t1 r.phone r) := by
            rw [applyDelivered_contacts,
              findByMessageId_map _ _ _ (deliveredUpdate_messageId t1 r.phone), hfind]
            rfl
          have hne : u.msgStatus ≠ WStatus.failed := by rw [hu]; simp
          have hskip : statusOrderW u.msgStatus
              ≤ statusOrderRec (deliveredUpdate t1 r.phone r).status := by
            rw [hu, deliveredUpdate_self_status t1 hrlt]
            decide
          rw [applyStatus_skip hfind2 hne hskip]
          exact ⟨rfl, rfl⟩
    | read =>
        by_cases hr : statusOrderW WStatus.read ≤ statusOrderRec r.status
        · have hne : u.msgStatus ≠ WStatus.failed := by rw [hu]; simp
          have hr' : statusOrderW u.msgStatus ≤ statusOrderRec r.status := by
            rw [hu]; exact hr
          rw [applyStatus_skip hfind hne hr', applyStatus_skip hfind hne hr']
          exact ⟨rfl, rfl⟩
        · have hrlt := Nat.not_le.mp hr
          rw [applyStatus_read_eq hfind hu hrlt]
          have hfind2 : findByMessageId (applyRead t1 db r.phone).contacts u.messageId
              = some (readUpdate t1 r.phone r) := by
            rw [applyRead_contacts,
              findByMessageId_map _ _ _ (readUpdate_messageId t1 r.phone), hfind]
            rfl
          have hne : u.msgStatus ≠ WStatus.failed := by rw [hu]; simp
          have hskip : statusOrderW u.msgStatus
              ≤ statusOrderRec (readUpdate t1 r.phone r).status := by
            rw [hu, readUpdate_self_status t1 hrlt]
            decide
          rw [applyStatus_skip hfind2 hne hskip]
          exact ⟨rfl, rfl⟩
    | failed =>
        rw [applyStatus_failed_eq hfind hu]
        have hcontacts := applyFailed_contacts t1 db r.phone u.errorCode u.errorTitle u.errorDetails
        have hfind2 : findByMessageId
            (applyFailed t1 db r.phone u.errorCode u.errorTitle u.errorDetails).contacts
            u.messageId = some (failedUpdate t1 r.phone u.errorCode r) := by
          rw [hcontacts,
            findByMessageId_map _ _ _ (failedUpdate_messageId t1 r.phone u.errorCode), hfind]
          rfl
        rw [applyStatus_failed_eq hfind2 hu]
        rw [failedUpdate_phone t1 r.phone u.errorCode r]
        have hnohit : ∀ c ∈ (applyFailed t1 db r.phone u.errorCode u.errorTitle u.errorDetails).contacts,
            failedCond r.phone c = false := by
          intro c hc
          rw [hcontacts] at hc
          rcases List.mem_map.mp hc with ⟨c0, _, rfl⟩
          exact failedCond_after_update t1 r.phone u.errorCode c0
        have hfilter : (applyFailed t1 db r.phone u.errorCode u.errorTitle u.errorDetails).contacts.filter
            (failedCond r.phone) = [] := by
          rw [List.filter_eq_nil_iff]
          intro c hc
          simp [hnohit c hc]
        constructor
        · rw [applyFailed_campaign, if_neg (by rw [hfilter]; simp)]
        · rw [applyFailed_contacts]
          apply map_eq_self_of_no_hit
          intro c hc
          unfold failedUpdate
          rw [if_neg (by rw [hnohit c hc]; simp)]

/-- The campaign row and the contact rows produced by `applyStatus` depend
only on the campaign row and the contact rows of the input state (not on
its alerts). -/
theorem applyStatus_cc_congr (t : Nat) (u : StatusUpdate) {s sB : DB}
    (h1 : s.campaign = sB.campaign) (h2 : s.contacts = sB.contacts) :
    (applyStatus t s u).campaign = (applyStatus t sB u).campaign
    ∧ (applyStatus t s u).contacts = (applyStatus t sB u).contacts := by
  rcases hfind : findByMessageId s.contacts u.messageId with _ | r
  · have hfindB : findByMessageId sB.contacts u.messageId = none := by
      rw [← h2]; exact hfind
    rw [applyStatus_none hfind, applyStatus_none hfindB]
    exact ⟨h1, h2⟩
  · have hfindB : findByMessageId sB.contacts u.messageId = some r := by
      rw [← h2]; exact hfind
    cases hu : u.msgStatus with
    | sent =>
        rw [applyStatus_sent hfind hu, applyStatus_sent hfindB hu]
        exact ⟨h1, h2⟩
    | other s0 =>
        rw [applyStatus_other hfind hu, applyStatus_other hfindB hu]
        exact ⟨h1, h2⟩
    | delivered =>
        by_cases hr : statusOrderW WStatus.delivered ≤ statusOrderRec r.status
        · have hne : u.msgStatus ≠ WStatus.failed := by rw [hu]; simp
          have hr' : statusOrderW u.msgStatus ≤ statusOrderRec r.status := by
            rw [hu]; exact hr
          rw [applyStatus_skip hfind hne hr', applyStatus_skip hfindB hne hr']
          exact ⟨h1, h2⟩
        · have hrlt := Nat.not_le.mp hr
          rw [applyStatus_delivered_eq hfind hu hrlt,
            applyStatus_delivered_eq hfindB hu hrlt]
          constructor
          · rw [applyDelivered_campaign, applyDelivered_campaign, h1, h2]
          · rw [applyDelivered_contacts, applyDelivered_contacts, h2]
    | read =>
        by_cases hr : statusOrderW WStatus.read ≤ statusOrderRec r.status
        · have hne : u.msgStatus ≠ WStatus.failed := by rw [hu]; simp
          have hr' : statusOrderW u.msgStatus ≤ statusOrderRec r.status := by
            rw [hu]; exact hr
          rw [applyStatus_skip hfind hne hr', applyStatus_skip hfindB hne hr']
          exact ⟨h1, h2⟩
        · have hrlt := Nat.not_le.mp hr
          rw [applyStatus_read_eq hfind hu hrlt, applyStatus_read_eq hfindB hu hrlt]
          constructor
          · rw [applyRead_campaign, applyRead_campaign, h1, h2]
          · rw [applyRead_contacts, applyRead_contacts, h2]
    | failed =>
        rw [applyStatus_failed_eq hfind hu, applyStatus_failed_eq hfindB hu]
        constructor
        · rw [applyFailed_campaign, applyFailed_campaign, h1, h2]
        · rw [applyFailed_contacts, applyFailed_contacts, h2]

/-- Replaying the same event any number of further times, at any clock
values, keeps the campaign row and contact rows of the first
application. -/
theorem applyStatus_fold_cc (t0 : Nat) (db : DB) (u : StatusUpdate) :
    ∀ (ts : List Nat) (s : DB),
      s.campaign = (applyStatus t0 db u).campaign →
      s.contacts = (applyStatus t0 db u).contacts →
      (ts.foldl (fun x t => applyStatus t x u) s).campaign = (applyStatus t0 db u).campaign
      ∧ (ts.foldl (fun x t => applyStatus t x u) s).contacts
          = (applyStatus t0 db u).contacts := by
  intro ts
  induction ts with
  | nil => intro s h1 h2; exact ⟨h1, h2⟩
  | cons t ts ih =>
      intro s h1 h2
      simp only [List.foldl_cons]
      apply ih
      · exact (applyStatus_cc_congr t u h1 h2).1.trans (applyStatus_idem t0 t db u).1
      · exact (applyStatus_cc_congr t u h1 h2).2.trans (applyStatus_idem t0 t db u).2

/-! ## Claim theorems -/

/-- C10: when the Redis backing store is not configured
(`redisClient = null`), `checkPairRateLimit` returns `true` for every
(sender, recipient) pair — the send cooldown fails open — while `checkCSW`
returns `false` for every pair — the 24-hour session window fails
closed. -/
theorem claim_C10 (phoneNumberId recipientPhone : String) :
    checkPairRateLimit none phoneNumberId recipientPhone = true
    ∧ checkCSW none phoneNumberId recipientPhone = false :=
  ⟨rfl, rfl⟩

/-- C4: after all batches the workflow re-reads the campaign and applies
the `complete-campaign` step, whose terminal status is `Failed` iff
`failed == recipients && recipients > 0`, `Completed` in every other case,
recording `completedAt`. -/
theorem claim_C4 (env : SendEnv) (now : Nat) (payload : List Contact)
    (st : RunState) (c : Campaign) :
    (runCampaign env now payload st).campaign
      = completeCampaignStep now
          (runBatches env now (buildBatches payload)
            { st with campaign := initCampaign now st.campaign }).campaign
    ∧ ((completeCampaignStep now c).status = CampaignStatus.failed
        ↔ (c.failed = c.recipients ∧ 0 < c.recipients))
    ∧ ((completeCampaignStep now c).status = CampaignStatus.failed
        ∨ (completeCampaignStep now c).status = CampaignStatus.completed)
    ∧ (completeCampaignStep now c).completedAt = some now := by
  refine ⟨rfl, ?_, ?_, rfl⟩
  · simp only [completeCampaignStep]
    split_ifs with h
    · simpa using h
    · simpa using h
  · simp only [completeCampaignStep]
    split_ifs with h
    · exact Or.inl rfl
    · exact Or.inr rfl

/-- C5 (amended): `Run` unconditionally transitions the campaign to
`Sending` and records `startedAt`, whatever the prior status — there is no
startable-state guard and no `AlreadyRunning` failure path — and the sends
proceed regardless of the prior status. -/
theorem claim_C5 (now : Nat) (c : Campaign) (env : SendEnv)
    (payload : List Contact) (st : RunState)
    (h : ∀ k, env.pausedRead k = false) :
    initCampaign now c
        = { c with status := CampaignStatus.sending, startedAt := some now }
    ∧ (runCampaign env now payload st).calls
        = st.calls ++ payload.map (fun x => x.phone) :=
  ⟨rfl, runCampaign_calls_unpaused env now h payload st⟩

/-- C5 counterexample: a campaign that is already `Sending` (not in a
startable state) is run anyway — the workflow performs its sends instead
of failing with `AlreadyRunning`. -/
theorem claim_C5_cex :
    runStateSending.campaign.status = CampaignStatus.sending
    ∧ (runCampaign envAllSuccess 0 twoContacts runStateSending).calls = ["pA", "pB"] := by
  refine ⟨rfl, ?_⟩
  rw [runCampaign_calls_unpaused envAllSuccess 0 (fun _ => rfl) twoContacts runStateSending]
  rfl

/-- C5 witness. -/
theorem claim_C5_witness :
    initCampaign 0 sampleCampaign
        = { sampleCampaign with status := CampaignStatus.sending, startedAt := some 0 }
    ∧ (runCampaign envAllSuccess 0 twoContacts runStateSending).calls
        = runStateSending.calls ++ twoContacts.map (fun x => x.phone) :=
  claim_C5 0 sampleCampaign envAllSuccess twoContacts runStateSending (fun _ => rfl)

/-- C6 (amended): the Batch Sender performs no `RateLimitKey` check
(`checkPairRateLimit` exists in `lib/data/campaigns.ts` but is never
invoked by the send loop): two sends to the same (sender, recipient) pair
within the same batch are both accepted — both API calls are made and both
count as sent. -/
theorem claim_C6 (env : SendEnv) (now : Nat) (st : RunState) (c : Contact)
    (mid : String) (hp : ∀ k, env.pausedRead k = false)
    (hs : env.send c = SendResult.success mid) :
    (sendLoop env now [c, c] st 0 0).2.1 = 2
    ∧ (sendLoop env now [c, c] st 0 0).1.calls = st.calls ++ [c.phone, c.phone] := by
  constructor
  · simp [sendLoop, hp, hs]
  · simp [sendLoop, hp, hs]

/-- C6 counterexample: two sends to the same recipient phone in the same
cooldown window result in two accepted sends, not exactly one accepted and
one skipped. -/
theorem claim_C6_cex :
    (sendLoop envAllSuccess 0 duplicateContacts sampleRunState 0 0).2.1 = 2
    ∧ (sendLoop envAllSuccess 0 duplicateContacts sampleRunState 0 0).2.1 ≠ 1
    ∧ (sendLoop envAllSuccess 0 duplicateContacts sampleRunState 0 0).1.calls
        = ["5511999990001", "5511999990001"] := by
  refine ⟨by decide, by decide, by decide⟩

/-- C6 witness. -/
theorem claim_C6_witness :
    (sendLoop envAllSuccess 0
        [{ phone := "5511999990001", name := "a" }, { phone := "5511999990001", name := "a" }]
        sampleRunState 0 0).2.1 = 2
    ∧ (sendLoop envAllSuccess 0
        [{ phone := "5511999990001", name := "a" }, { phone := "5511999990001", name := "a" }]
        sampleRunState 0 0).1.calls
        = sampleRunState.calls ++ ["5511999990001", "5511999990001"] :=
  claim_C6 envAllSuccess 0 sampleRunState { phone := "5511999990001", name := "a" }
    "wamid.5511999990001" (fun _ => rfl) rfl

/-- C7 (amended): a `Paused` status is observed cooperatively before each
recipient within a batch, not only between batches: a status read that
observes `Paused` at any position inside the batch makes the loop stop
without error, skipping the remaining recipients of the batch instead of
completing its current recipient set. -/
theorem claim_C7 (env : SendEnv) (now : Nat) (c : Contact)
    (rest : List Contact) (st : RunState) (s f : Nat)
    (h : env.pausedRead st.reads = true) :
    sendLoop env now (c :: rest) st s f = ({ st with reads := st.reads + 1 }, s, f) := by
  simp [sendLoop, h]

/-- C7 counterexample: with the pause taking effect after the first
recipient of a two-recipient batch, the in-flight batch sends to the first
recipient only — the pause is observed mid-batch and the batch does not
complete its current recipient set. -/
theorem claim_C7_cex :
    (sendLoop envPausedAtOne 0 twoContacts sampleRunState 0 0).1.calls = ["pA"]
    ∧ (sendLoop envPausedAtOne 0 twoContacts sampleRunState 0 0).1.calls ≠ ["pA", "pB"] := by
  refine ⟨by decide, by decide⟩

/-- C7 witness. -/
theorem claim_C7_witness :
    sendLoop envPausedAtOne 0 twoContacts { sampleRunState with reads := 1 } 3 4
      = ({ sampleRunState with reads := 2 }, 3, 4) :=
  claim_C7 envPausedAtOne 0 { phone := "pA", name := "a" } [{ phone := "pB", name := "b" }]
    { sampleRunState with reads := 1 } 3 4 rfl

/-- C3 (amended): re-invoking `Run` sends to every contact of the provided
payload, in order, whenever no pause is observed — the send loop never
consults the stored `DeliveryRecord` statuses, so recipients that already
have a non-pending `DeliveryRecord` are not skipped. -/
theorem claim_C3 (env : SendEnv) (now : Nat) (payload : List Contact)
    (st : RunState) (h : ∀ k, env.pausedRead k = false) :
    (runCampaign env now payload st).calls = st.calls ++ payload.map (fun c => c.phone) :=
  runCampaign_calls_unpaused env now h payload st

/-- C3 counterexample: a campaign with 100 recipients of which 40 already
have non-pending `DeliveryRecord`s; re-invoking `Run` sends to all 100
recipients (including already-sent `p0`), not to the remaining 60. -/
theorem claim_C3_cex :
    contacts100.countP (fun c => decide (c.status ≠ RecStatus.pending)) = 40
    ∧ runState100.campaign.recipients = 100
    ∧ (runCampaign envAllSuccess 0 payload100 runState100).calls.length = 100
    ∧ (runCampaign envAllSuccess 0 payload100 runState100).calls.length ≠ 60
    ∧ "p0" ∈ (runCampaign envAllSuccess 0 payload100 runState100).calls := by
  have hcalls :
      (runCampaign envAllSuccess 0 payload100 runState100).calls
        = payload100.map (fun c => c.phone) := by
    rw [runCampaign_calls_unpaused envAllSuccess 0 (fun _ => rfl) payload100 runState100]
    rfl
  refine ⟨by decide, rfl, ?_, ?_, ?_⟩
  · rw [hcalls]; simp [payload100]
  · rw [hcalls]; simp [payload100]
  · rw [hcalls]; decide

/-- C3 witness. -/
theorem claim_C3_witness :
    (runCampaign envAllSuccess 0 twoContacts sampleRunState).calls
      = sampleRunState.calls ++ twoContacts.map (fun c => c.phone) :=
  claim_C3 envAllSuccess 0 twoContacts sampleRunState (fun _ => rfl)

/-- One reconciliation step never lowers any stored rank (under the
code's order, where `failed` has the top rank 4), provided the phones are
unique as the `UNIQUE(campaign_id, phone)` constraint guarantees. -/
theorem applyStatus_mono (now : Nat) (db : DB) (u : StatusUpdate)
    (hnd : (db.contacts.map (fun c => c.phone)).Nodup) :
    List.Forall₂ (fun c cB => statusOrderRec c.status ≤ statusOrderRec cB.status)
      db.contacts (applyStatus now db u).contacts := by
  have hrefl : List.Forall₂
      (fun c cB => statusOrderRec c.status ≤ statusOrderRec cB.status)
      db.contacts db.contacts :=
    List.forall₂_same.mpr (fun x _ => Nat.le_refl _)
  rcases hfind : findByMessageId db.contacts u.messageId with _ | r
  · rw [applyStatus_none hfind]; exact hrefl
  · cases hu : u.msgStatus with
    | sent => rw [applyStatus_sent hfind hu]; exact hrefl
    | other s0 => rw [applyStatus_other hfind hu]; exact hrefl
    | delivered =>
        by_cases hr : statusOrderW WStatus.delivered ≤ statusOrderRec r.status
        · have hne : u.msgStatus ≠ WStatus.failed := by rw [hu]; simp
          rw [applyStatus_skip hfind hne (by rw [hu]; exact hr)]
          exact hrefl
        · have hrlt := Nat.not_le.mp hr
          rw [applyStatus_delivered_eq hfind hu hrlt, applyDelivered_contacts]
          rw [List.forall₂_map_right_iff]
          apply List.forall₂_same.mpr
          intro c hc
          unfold deliveredUpdate
          by_cases hcond : deliveredCond r.phone c = true
          · rw [if_pos hcond]
            have hparts : c.phone = r.phone ∧ c.status ≠ RecStatus.delivered
                ∧ c.status ≠ RecStatus.read := by
              simpa [deliveredCond] using hcond
            have hceq : c = r :=
              List.inj_on_of_nodup_map hnd hc (mem_of_findByMessageId hfind) hparts.1
            show statusOrderRec c.status ≤ statusOrderRec RecStatus.delivered
            rw [hceq]
            exact Nat.le_of_lt hrlt
          · rw [if_neg hcond]
    | read =>
        by_cases hr : statusOrderW WStatus.read ≤ statusOrderRec r.status
        · have hne : u.msgStatus ≠ WStatus.failed := by rw [hu]; simp
          rw [applyStatus_skip hfind hne (by rw [hu]; exact hr)]
          exact hrefl
        · have hrlt := Nat.not_le.mp hr
          rw [applyStatus_read_eq hfind hu hrlt, applyRead_contacts]
          rw [List.forall₂_map_right_iff]
          apply List.forall₂_same.mpr
          intro c hc
          unfold readUpdate
          by_cases hcond : readCond r.phone c = true
          · rw [if_pos hcond]
            have hparts : c.phone = r.phone ∧ c.status ≠ RecStatus.read := by
              simpa [readCond] using hcond
            have hceq : c = r :=
              List.inj_on_of_nodup_map hnd hc (mem_of_findByMessageId hfind) hparts.1
            show statusOrderRec c.status ≤ statusOrderRec RecStatus.read
            rw [hceq]
            exact Nat.le_of_lt hrlt
          · rw [if_neg hcond]
    | failed =>
        rw [applyStatus_failed_eq hfind hu, applyFailed_contacts]
        rw [List.forall₂_map_right_iff]
        apply List.forall₂_same.mpr
        intro c hc
        unfold failedUpdate
        by_cases hcond : failedCond r.phone c = true
        · rw [if_pos hcond]
          show statusOrderRec c.status ≤ statusOrderRec RecStatus.failed
          generalize c.status = st
          cases st <;> decide
        · rw [if_neg hcond]

/-- Reconciliation never changes the phone column. -/
theorem applyStatus_phones (now : Nat) (db : DB) (u : StatusUpdate) :
    (applyStatus now db u).contacts.map (fun c => c.phone)
      = db.contacts.map (fun c => c.phone) := by
  rcases hfind : findByMessageId db.contacts u.messageId with _ | r
  · rw [applyStatus_none hfind]
  · cases hu : u.msgStatus with
    | sent => rw [applyStatus_sent hfind hu]
    | other s0 => rw [applyStatus_other hfind hu]
    | delivered =>
        by_cases hr : statusOrderW WStatus.delivered ≤ statusOrderRec r.status
        · have hne : u.msgStatus ≠ WStatus.failed := by rw [hu]; simp
          rw [applyStatus_skip hfind hne (by rw [hu]; exact hr)]
        · have hrlt := Nat.not_le.mp hr
          rw [applyStatus_delivered_eq hfind hu hrlt, applyDelivered_contacts,
            List.map_map]
          exact List.map_congr_left fun c _ => deliveredUpdate_phone now r.phone c
    | read =>
        by_cases hr : statusOrderW WStatus.read ≤ statusOrderRec r.status
        · have hne : u.msgStatus ≠ WStatus.failed := by rw [hu]; simp
          rw [applyStatus_skip hfind hne (by rw [hu]; exact hr)]
        · have hrlt := Nat.not_le.mp hr
          rw [applyStatus_read_eq hfind hu hrlt, applyRead_contacts, List.map_map]
          exact List.map_congr_left fun c _ => readUpdate_phone now r.phone c
    | failed =>
        rw [applyStatus_failed_eq hfind hu, applyFailed_contacts, List.map_map]
        exact List.map_congr_left fun c _ => failedUpdate_phone now r.phone u.errorCode c

theorem forall₂_rank_trans {l1 l2 l3 : List ContactRecord}
    (h1 : List.Forall₂ (fun c cB => statusOrderRec c.status ≤ statusOrderRec cB.status) l1 l2)
    (h2 : List.Forall₂ (fun c cB => statusOrderRec c.status ≤ statusOrderRec cB.status) l2 l3) :
    List.Forall₂ (fun c cB => statusOrderRec c.status ≤ statusOrderRec cB.status) l1 l3 := by
  induction h1 generalizing l3 with
  | nil => cases h2; exact List.Forall₂.nil
  | cons hab h ih =>
      cases h2 with
      | cons hbc h2B => exact List.Forall₂.cons (Nat.le_trans hab hbc) (ih h2B)

/-- Over any sequence of delivery-receipt events, every stored rank is
non-decreasing. -/
theorem applyEvents_mono :
    ∀ (events : List (Nat × StatusUpdate)) (db : DB),
      (db.contacts.map (fun c => c.phone)).Nodup →
      List.Forall₂ (fun c cB => statusOrderRec c.status ≤ statusOrderRec cB.status)
        db.contacts (applyEvents db events).contacts := by
  intro events
  induction events with
  | nil =>
      intro db hnd
      exact List.forall₂_same.mpr (fun x _ => Nat.le_refl _)
  | cons e es ih =>
      intro db hnd
      have hstep := applyStatus_mono e.1 db e.2 hnd
      have hnd' : ((applyStatus e.1 db e.2).contacts.map (fun c => c.phone)).Nodup := by
        rw [applyStatus_phones]; exact hnd
      have hrest := ih (applyStatus e.1 db e.2) hnd'
      have hstep_eq : applyEvents db (e :: es) = applyEvents (applyStatus e.1 db e.2) es := rfl
      rw [hstep_eq]
      exact forall₂_rank_trans hstep hrest

/-- C1: applying the Status Reconciler to one delivery-receipt event N
times (N ≥ 1, at arbitrary clock values) yields the same Campaign counters
and the same DeliveryRecord status and timestamps as applying it once; in
particular a `delivered` event that advances the record increments the
campaign's `delivered` counter by exactly 1, and a duplicate leaves it
there. -/
theorem claim_C1 (t0 : Nat) (ts : List Nat) (db : DB) (u : StatusUpdate) :
    ((ts.foldl (fun s t => applyStatus t s u) (applyStatus t0 db u)).campaign
        = (applyStatus t0 db u).campaign
      ∧ (ts.foldl (fun s t => applyStatus t s u) (applyStatus t0 db u)).contacts
        = (applyStatus t0 db u).contacts)
    ∧ (∀ r, findByMessageId db.contacts u.messageId = some r →
        u.msgStatus = WStatus.delivered →
        statusOrderRec r.status < statusOrderW WStatus.delivered →
        (applyStatus t0 db u).campaign.delivered = db.campaign.delivered + 1) := by
  constructor
  · exact applyStatus_fold_cc t0 db u ts (applyStatus t0 db u) rfl rfl
  · intro r hfind hu hr
    rw [applyStatus_delivered_eq hfind hu hr]
    exact applyDelivered_count t0 db (mem_of_findByMessageId hfind) (deliveredCond_self hr)

/-- C1 witness: a `delivered` receipt for the sent record `m1`, replayed
at clock values 2 and 3 after first processing at 1. -/
theorem claim_C1_witness :
    ((([2, 3] : List Nat).foldl (fun s t => applyStatus t s evDelivered)
          (applyStatus 1 sampleDB evDelivered)).campaign
        = (applyStatus 1 sampleDB evDelivered).campaign
      ∧ (([2, 3] : List Nat).foldl (fun s t => applyStatus t s evDelivered)
          (applyStatus 1 sampleDB evDelivered)).contacts
        = (applyStatus 1 sampleDB evDelivered).contacts)
    ∧ (applyStatus 1 sampleDB evDelivered).campaign.delivered
        = sampleDB.campaign.delivered + 1 :=
  ⟨(claim_C1 1 [2, 3] sampleDB evDelivered).1,
   (claim_C1 1 [2, 3] sampleDB evDelivered).2 sampleRec (by decide) rfl (by decide)⟩

/-- C2: the stored DeliveryRecord status never regresses: (i) the guard
discards any non-`failed` event whose rank does not exceed the stored rank
without touching the state; (ii) over any sequence of events, every stored
status is non-decreasing in the code's rank order (`pending(0) < sent(1) <
delivered(2) < read(3)`, with `failed` ranked 4 outside the progression),
given phone uniqueness; (iii) a `delivered` event arriving after `read`
changes neither the record nor any counter. -/
theorem claim_C2 :
    (∀ (now : Nat) (db : DB) (u : StatusUpdate) (r : ContactRecord),
        findByMessageId db.contacts u.messageId = some r →
        u.msgStatus ≠ WStatus.failed →
        statusOrderW u.msgStatus ≤ statusOrderRec r.status →
        applyStatus now db u = db)
    ∧ (∀ (events : List (Nat × StatusUpdate)) (db : DB),
        (db.contacts.map (fun c => c.phone)).Nodup →
        List.Forall₂ (fun c cB => statusOrderRec c.status ≤ statusOrderRec cB.status)
          db.contacts (applyEvents db events).contacts)
    ∧ (∀ (now : Nat) (db : DB) (u : StatusUpdate) (r : ContactRecord),
        findByMessageId db.contacts u.messageId = some r →
        r.status = RecStatus.read → u.msgStatus = WStatus.delivered →
        applyStatus now db u = db ∧ (applyStatus now db u).campaign = db.campaign) := by
  refine ⟨?_, ?_, ?_⟩
  · intro now db u r hfind hne hr
    exact applyStatus_skip hfind hne hr
  · intro events db hnd
    exact applyEvents_mono events db hnd
  · intro now db u r hfind hst hu
    have h : applyStatus now db u = db :=
      applyStatus_skip hfind (by rw [hu]; simp) (by rw [hu, hst]; decide)
    exact ⟨h, by rw [h]⟩

/-- C2 witness: a stale `delivered` event for a record already `read` is
discarded, and a short event sequence never regresses the stored rank. -/
theorem claim_C2_witness :
    (applyStatus 7 sampleDBRead evDelivered = sampleDBRead)
    ∧ List.Forall₂ (fun c cB => statusOrderRec c.status ≤ statusOrderRec cB.status)
        sampleDB.contacts (applyEvents sampleDB [(5, evRead), (6, evDelivered)]).contacts
    ∧ (applyStatus 7 sampleDBRead evDelivered).campaign = sampleDBRead.campaign :=
  ⟨claim_C2.1 7 sampleDBRead evDelivered sampleRecRead (by decide) (by decide) (by decide),
   claim_C2.2.1 [(5, evRead), (6, evDelivered)] sampleDB (by decide),
   (claim_C2.2.2 7 sampleDBRead evDelivered sampleRecRead (by decide) rfl rfl).2⟩

/-- Upserting the same alert row twice is the same as upserting it
once (the `id` key is identical, so the second upsert replaces the row
with itself). -/
theorem upsertAlert_twice (l : List Alert) (a : Alert) :
    upsertAlert (upsertAlert l a) a = upsertAlert l a := by
  unfold upsertAlert
  by_cases h : l.any (fun b => decide (b.id = a.id)) = true
  · rw [if_pos h]
    have hany2 : (l.map (fun b => if b.id = a.id then a else b)).any
        (fun b => decide (b.id = a.id)) = true := by
      rcases List.any_eq_true.mp h with ⟨b, hb, hbid⟩
      apply List.any_eq_true.mpr
      exact ⟨a, List.mem_map.mpr ⟨b, hb, by rw [if_pos (of_decide_eq_true hbid)]⟩, by simp⟩
    rw [if_pos hany2, List.map_map]
    apply List.map_congr_left
    intro b _
    by_cases hb : b.id = a.id
    · simp [hb]
    · simp [hb]
  · rw [if_neg h]
    have hany2 : ((l ++ [a]).any (fun b => decide (b.id = a.id))) = true := by
      apply List.any_eq_true.mpr
      exact ⟨a, List.mem_append.mpr (Or.inr (List.mem_cons_self a [])), by simp⟩
    rw [if_pos hany2, List.map_append]
    have hnone : ∀ b ∈ l, ¬(b.id = a.id) := by
      intro b hb hbid
      exact h (List.any_eq_true.mpr ⟨b, hb, decide_eq_true hbid⟩)
    have hl : l.map (fun b => if b.id = a.id then a else b) = l :=
      map_eq_self_of_no_hit (fun b hb => if_neg (hnone b hb))
    rw [hl]
    simp

/-- C8: the webhook handler acknowledges every request whose body parses
as JSON with HTTP 200 (`ok` for the WhatsApp object, `ignored` for any
other object), but a request whose body fails JSON parsing raises out of
the handler — `await request.json()` runs before the try/catch — so it is
NOT acknowledged with a success response. -/
theorem claim_C8 (now : Nat) (db : DB) :
    (webhookPOST now db WebhookBody.malformed).1 = HttpOutcome.thrown
    ∧ (∀ s b, (webhookPOST now db WebhookBody.malformed).1 ≠ HttpOutcome.ok s b)
    ∧ (∀ objectField events,
        (webhookPOST now db (WebhookBody.json objectField events)).1
            = HttpOutcome.ok 200 "ok"
        ∨ (webhookPOST now db (WebhookBody.json objectField events)).1
            = HttpOutcome.ok 200 "ignored") := by
  refine ⟨rfl, ?_, ?_⟩
  · intro s b h
    exact HttpOutcome.noConfusion h
  · intro objectField events
    by_cases h : objectField = "whatsapp_business_account"
    · left
      simp [webhookPOST, h]
    · right
      simp [webhookPOST, h]

/-- C8 witness: a malformed body raises; a parsed receipt body is
acknowledged 200. -/
theorem claim_C8_witness :
    (webhookPOST 0 sampleDB WebhookBody.malformed).1 = HttpOutcome.thrown
    ∧ (webhookPOST 0 sampleDB
        (WebhookBody.json "whatsapp_business_account" [evDelivered])).1
        = HttpOutcome.ok 200 "ok" := by
  refine ⟨(claim_C8 0 sampleDB).1, ?_⟩
  rcases (claim_C8 0 sampleDB).2.2 "whatsapp_business_account" [evDelivered] with h | h
  · exact h
  · exact absurd h (by decide)

/-- C9 (amended): a critical `failed` receipt upserts an account alert
whose key is ``alert_${errorCode}_${Date.now()}``: replaying the event at
the same millisecond leaves the alerts unchanged, but replaying it at a
clock value giving a different key inserts a second alert row — the upsert
key is time-dependent, so duplicate deliveries of the same critical
failure are deduplicated only within the same millisecond. -/
theorem claim_C9 (t1 t2 : Nat) (db : DB) (u : StatusUpdate) (r : ContactRecord)
    (hfind : findByMessageId db.contacts u.messageId = some r)
    (hu : u.msgStatus = WStatus.failed)
    (hcrit : isCriticalError u.errorCode = true)
    (hempty : db.alerts = [])
    (hkeys : alertKey u.errorCode t1 ≠ alertKey u.errorCode t2) :
    ((applyStatus t1 db u).alerts
        = upsertAlert db.alerts (criticalAlert t1 u.errorCode u.errorTitle u.errorDetails))
    ∧ (applyStatus t1 (applyStatus t1 db u) u).alerts = (applyStatus t1 db u).alerts
    ∧ ((applyStatus t2 (applyStatus t1 db u) u).alerts).length = 2 := by
  have h1 : applyStatus t1 db u
      = applyFailed t1 db r.phone u.errorCode u.errorTitle u.errorDetails :=
    applyStatus_failed_eq hfind hu
  have halerts1 : (applyStatus t1 db u).alerts
      = upsertAlert db.alerts (criticalAlert t1 u.errorCode u.errorTitle u.errorDetails) := by
    rw [h1, applyFailed_alerts, if_pos hcrit]
  have hfind2 : findByMessageId (applyStatus t1 db u).contacts u.messageId
      = some (failedUpdate t1 r.phone u.errorCode r) := by
    rw [h1, applyFailed_contacts,
      findByMessageId_map _ _ _ (failedUpdate_messageId t1 r.phone u.errorCode), hfind]
    rfl
  have h2 : ∀ t, applyStatus t (applyStatus t1 db u) u
      = applyFailed t (applyStatus t1 db u) (failedUpdate t1 r.phone u.errorCode r).phone
          u.errorCode u.errorTitle u.errorDetails :=
    fun t => applyStatus_failed_eq hfind2 hu
  refine ⟨halerts1, ?_, ?_⟩
  · rw [h2 t1, applyFailed_alerts, if_pos hcrit, halerts1]
    exact upsertAlert_twice db.alerts _
  · rw [h2 t2, applyFailed_alerts, if_pos hcrit, halerts1, hempty]
    have e1 : upsertAlert ([] : List Alert)
        (criticalAlert t1 u.errorCode u.errorTitle u.errorDetails)
        = [criticalAlert t1 u.errorCode u.errorTitle u.errorDetails] := by
      unfold upsertAlert
      simp
    rw [e1]
    have e2 : upsertAlert [criticalAlert t1 u.errorCode u.errorTitle u.errorDetails]
        (criticalAlert t2 u.errorCode u.errorTitle u.errorDetails)
        = [criticalAlert t1 u.errorCode u.errorTitle u.errorDetails,
           criticalAlert t2 u.errorCode u.errorTitle u.errorDetails] := by
      unfold upsertAlert
      rw [if_neg (by simpa [criticalAlert] using hkeys)]
      rfl
    rw [e2]
    rfl

/-- C9 counterexample: the same critical `failed` receipt processed twice
(at clock values 0 and 1) produces two alert rows, not exactly one. -/
theorem claim_C9_cex :
    ((applyStatus 1 (applyStatus 0 sampleDB evFailedCritical) evFailedCritical).alerts).length = 2
    ∧ ((applyStatus 1 (applyStatus 0 sampleDB evFailedCritical) evFailedCritical).alerts).length
        ≠ 1 :=
  ⟨by decide, by decide⟩

/-- C9 witness. -/
theorem claim_C9_witness :
    ((applyStatus 0 sampleDB evFailedCritical).alerts
        = upsertAlert sampleDB.alerts
            (criticalAlert 0 evFailedCritical.errorCode evFailedCritical.errorTitle
              evFailedCritical.errorDetails))
    ∧ (applyStatus 0 (applyStatus 0 sampleDB evFailedCritical) evFailedCritical).alerts
        = (applyStatus 0 sampleDB evFailedCritical).alerts
    ∧ ((applyStatus 1 (applyStatus 0 sampleDB evFailedCritical) evFailedCritical).alerts).length
        = 2 :=
  claim_C9 0 1 sampleDB evFailedCritical sampleRec (by decide) rfl (by decide) rfl (by decide)

end SmartZap
